import Mathlib

/-!
Verification of the bollywodNightBackend booking/payment service.

The repository is a single Express application (`src/index.js`) present in two
variants separated in the source file: variant A (lines 1-244) and variant B
(lines 245-503).  Both variants define the same Mongoose data model (User,
Ticket embedded in Booking) and the same set of routes; they differ in small
details (error messages, the `...formData` spread in variant A's
verify-payment handler versus explicit field assignment in variant B, inline
auth versus an `auth` middleware, whether the register response includes the
stored password hash, and token lifetime).

The embedding below is shallow and purely functional:
- the Mongo collections become Lean lists (`List User`, `List Booking`); a
  `save()` is an append at the end of the list; `findOne({email})` is
  `List.find?` on the email field; `find({userId})` is `List.filter`;
- `crypto.createHmac("sha256", secret).update(msg).digest("hex")` is an
  abstract parameter `hmac : String -> String -> String` (key, message to hex
  digest) -- the handlers only compare its output for string equality;
- `bcrypt.hash`/`bcrypt.compare` are abstract parameters
  `hash : String -> String` and `cmp : String -> String -> Bool`;
- `jwt.sign({userId}, JWT_SECRET, ...)` is an abstract `sign : String -> String`
  and `jwt.verify` is `vf : String -> Option String` returning the decoded
  user id on success and `none` when the library would throw;
- `Math.floor(Math.random() * 10000)` is modelled by a draw `rnd : Nat` from
  the randomness source reduced mod 10000 (the JS expression's range is
  exactly [0, 10000)); `Date.now()` is a parameter `now : Nat`; a fresh Mongo
  `_id` is a parameter (`oid`, `newId`);
- JS numbers occurring in amounts/quantities/prices are modelled as `Int`;
- each handler returns its JSON response (a structure with the HTTP status,
  the message of an error body, and the data fields of a success body)
  together with the updated store when it can write.

Mongoose-specific behaviour that the handlers rely on is modelled where the
claims depend on it: the `status` path has schema default "CONFIRMED" applied
when the constructing object does not set it; client-supplied `formData` in
variant A is spread into the Booking constructor, so schema paths present in
`formData` (including `status`) are assigned from it, while `paymentId` and
`bookingId` are written after the spread and therefore always win; a missing
`formData.userId` fails variant A's explicit guard, and in variant B it makes
the save reject (required/cast validation), which the catch block converts to
a 500 response with no write.
-/

namespace BollywoodNight

/-- Ticket type enum from the ticketSchema: `enum: ["STAG", "COUPLE"]`. -/
inductive TicketType where
  | STAG : TicketType
  | COUPLE : TicketType
deriving DecidableEq

/-- Booking status enum from the bookingSchema:
`enum: ["PENDING", "CONFIRMED", "USED"], default: "CONFIRMED"`. -/
inductive BookingStatus where
  | PENDING : BookingStatus
  | CONFIRMED : BookingStatus
  | USED : BookingStatus
deriving DecidableEq

/-- Embedded ticket line (ticketSchema): type, quantity, price. -/
structure Ticket where
  ttype : TicketType
  quantity : Int
  price : Int
deriving DecidableEq

/-- A persisted Booking document (bookingSchema).  `mid` stands for the
Mongo-generated `_id`; `createdAt` is the `Date.now` default. -/
structure Booking where
  mid : String
  tickets : List Ticket
  totalAmount : Int
  name : String
  email : String
  phone : String
  userId : String
  paymentId : String
  bookingId : String
  status : BookingStatus
  createdAt : Nat
deriving DecidableEq

/-- The client-supplied `formData` object of a verify-payment request.  The
fields the Booking constructor reads are present; `userId` is optional (the
client may omit it, and JS treats the empty string as missing too, via the
falsy check `!formData.userId`); `status`, `paymentId` and `bookingId` model a
client that smuggles schema paths into `formData` (relevant to variant A's
`...formData` spread). -/
structure FormData where
  tickets : List Ticket
  totalAmount : Int
  name : String
  email : String
  phone : String
  userId : Option String
  status : Option BookingStatus
  paymentId : Option String
  bookingId : Option String
deriving DecidableEq

/-- Body of a POST /api/verify-payment request; `formData` is optional because
the client may omit it (`!formData` guard in variant A). -/
structure VerifyRequest where
  razorpay_payment_id : String
  razorpay_order_id : String
  razorpay_signature : String
  formData : Option FormData
deriving DecidableEq

/-- JSON response of the verify-payment handlers: HTTP status, error message
body, and the `{success, booking}` success body. -/
structure VerifyResponse where
  status : Nat
  message : Option String
  success : Bool
  booking : Option Booking
deriving DecidableEq

/-- The recomputed signature: `crypto.createHmac("sha256", RAZORPAY_KEY_SECRET)
.update(razorpay_order_id + "|" + razorpay_payment_id).digest("hex")`. -/
def genSig (hmac : String → String → String) (secret : String)
    (req : VerifyRequest) : String :=
  hmac secret (req.razorpay_order_id ++ "|" ++ req.razorpay_payment_id)

/-- JS truthiness of `formData && formData.userId`: `formData` present and its
`userId` present and non-empty. -/
def hasUserId : Option FormData → Bool
  | none => false
  | some fd => !(fd.userId.getD "" == "")

/-- The Booking document variant A constructs on a verified payment:
`new Booking({ ...formData, paymentId: razorpay_payment_id, bookingId })` with
`bookingId = "BN" + Math.floor(Math.random() * 10000)`.  The spread assigns
every schema path present in `formData` (so a client-supplied `status` lands
in the document, and the schema default CONFIRMED applies only when `formData`
has no `status`); `paymentId` and `bookingId` are assigned after the spread
and overwrite any client-supplied value. -/
def mkBookingA (oid : String) (rnd now : Nat) (req : VerifyRequest)
    (fd : FormData) : Booking :=
  { mid := oid
    tickets := fd.tickets
    totalAmount := fd.totalAmount
    name := fd.name
    email := fd.email
    phone := fd.phone
    userId := fd.userId.getD ""
    paymentId := req.razorpay_payment_id
    bookingId := "BN" ++ toString (rnd % 10000)
    status := fd.status.getD BookingStatus.CONFIRMED
    createdAt := now }

/-- The Booking document variant B constructs on a verified payment: every
field is assigned explicitly from `formData` / the request, `status` is never
assigned so the schema default CONFIRMED always applies. -/
def mkBookingB (oid : String) (rnd now : Nat) (req : VerifyRequest)
    (fd : FormData) : Booking :=
  { mid := oid
    tickets := fd.tickets
    totalAmount := fd.totalAmount
    name := fd.name
    email := fd.email
    phone := fd.phone
    userId := fd.userId.getD ""
    paymentId := req.razorpay_payment_id
    bookingId := "BN" ++ toString (rnd % 10000)
    status := BookingStatus.CONFIRMED
    createdAt := now }

/-- Variant A's POST /api/verify-payment handler (src/index.js lines 80-118):
first the guard `if (!formData || !formData.userId) return 400 "User ID is
required"`, then the HMAC recomputation and comparison with 400 "Invalid
payment signature" on mismatch, then construction and save of the new
Booking and the `{success: true, booking}` response. -/
def verifyPaymentA (hmac : String → String → String) (secret oid : String)
    (rnd now : Nat) (st : List Booking) (req : VerifyRequest) :
    VerifyResponse × List Booking :=
  match req.formData with
  | none =>
      ({ status := 400, message := some "User ID is required",
         success := false, booking := none }, st)
  | some fd =>
      if fd.userId.getD "" == "" then
        ({ status := 400, message := some "User ID is required",
           success := false, booking := none }, st)
      else if genSig hmac secret req != req.razorpay_signature then
        ({ status := 400, message := some "Invalid payment signature",
           success := false, booking := none }, st)
      else
        let b := mkBookingA oid rnd now req fd
        ({ status := 200, message := none, success := true,
           booking := some b }, st ++ [b])

/-- Variant B's POST /api/verify-payment handler (src/index.js lines 409-449):
the HMAC comparison comes first (400 "Invalid payment signature" on
mismatch); then the Booking is constructed field by field.  When `formData`
is absent the property access `formData.tickets` throws, and when its
`userId` is missing/empty the Mongoose required/cast validation rejects the
save; either way the catch block answers 500 "Error verifying payment" and
nothing is written. -/
def verifyPaymentB (hmac : String → String → String) (secret oid : String)
    (rnd now : Nat) (st : List Booking) (req : VerifyRequest) :
    VerifyResponse × List Booking :=
  if genSig hmac secret req != req.razorpay_signature then
    ({ status := 400, message := some "Invalid payment signature",
       success := false, booking := none }, st)
  else
    match req.formData with
    | none =>
        ({ status := 500, message := some "Error verifying payment",
           success := false, booking := none }, st)
    | some fd =>
        if fd.userId.getD "" == "" then
          ({ status := 500, message := some "Error verifying payment",
             success := false, booking := none }, st)
        else
          let b := mkBookingB oid rnd now req fd
          ({ status := 200, message := none, success := true,
             booking := some b }, st ++ [b])

/-- A persisted User document (userSchema); `uid` stands for `_id`. -/
structure User where
  uid : String
  name : String
  email : String
  phone : String
  password : String
deriving DecidableEq

/-- Body of a register request. -/
structure RegisterRequest where
  name : String
  email : String
  phone : String
  password : String
deriving DecidableEq

/-- Body of a login request. -/
structure LoginRequest where
  email : String
  password : String
deriving DecidableEq

/-- The user object a register/login response carries.  `pid` stands for the
id key (`userId` in variant A's register, `id` in variant A's login, `_id` in
variant B's full document); `password` is `none` when the response omits the
password field and `some h` when it carries the stored hash (variant B
returns the full Mongoose document). -/
structure Profile where
  pid : Option String
  name : String
  email : String
  phone : String
  password : Option String
deriving DecidableEq

/-- JSON response of the register/login handlers. -/
structure AuthResponse where
  status : Nat
  message : Option String
  token : Option String
  user : Option Profile
deriving DecidableEq

/-- Variant A's POST /api/register handler (src/index.js lines 141-160):
`findOne({email})` duplicate check answering 400 "Email already in use",
otherwise save of `{name, email, phone, password: bcrypt.hash(password, 10)}`
and response `{token, user: {userId, name, email, phone}}` (no password
field).  `hash` models `bcrypt.hash`, `sign` models `jwt.sign` on the new
`_id` (`newId`). -/
def registerA (hash sign : String → String) (newId : String)
    (st : List User) (r : RegisterRequest) : AuthResponse × List User :=
  match st.find? (fun u => u.email == r.email) with
  | some _ =>
      ({ status := 400, message := some "Email already in use",
         token := none, user := none }, st)
  | none =>
      let hashed := hash r.password
      let u : User :=
        { uid := newId, name := r.name, email := r.email, phone := r.phone,
          password := hashed }
      ({ status := 200, message := none, token := some (sign newId),
         user := some { pid := some newId, name := r.name, email := r.email,
                        phone := r.phone, password := none } },
       st ++ [u])

/-- Variant B's POST /register handler (src/index.js lines 346-365): duplicate
check answering 400 "User already exists", otherwise save and
`res.status(201).json({ token, user })` where `user` is the full saved
document, hashed password field included. -/
def registerB (hash sign : String → String) (newId : String)
    (st : List User) (r : RegisterRequest) : AuthResponse × List User :=
  match st.find? (fun u => u.email == r.email) with
  | some _ =>
      ({ status := 400, message := some "User already exists",
         token := none, user := none }, st)
  | none =>
      let hashed := hash r.password
      let u : User :=
        { uid := newId, name := r.name, email := r.email, phone := r.phone,
          password := hashed }
      ({ status := 201, message := none, token := some (sign newId),
         user := some { pid := some newId, name := r.name, email := r.email,
                        phone := r.phone, password := some hashed } },
       st ++ [u])

/-- Variant A's POST /api/login handler (src/index.js lines 219-242): unknown
email and failed `bcrypt.compare` both answer 400 "Invalid email or
password"; on success `{token, user: {id, name, email, phone}}` with the
email echoed from the request body.  `cmp` models `bcrypt.compare`. -/
def loginA (cmp : String → String → Bool) (sign : String → String)
    (st : List User) (r : LoginRequest) : AuthResponse :=
  match st.find? (fun u => u.email == r.email) with
  | none =>
      { status := 400, message := some "Invalid email or password",
        token := none, user := none }
  | some u =>
      if cmp r.password u.password then
        { status := 200, message := none, token := some (sign u.uid),
          user := some { pid := some u.uid, name := u.name, email := r.email,
                         phone := u.phone, password := none } }
      else
        { status := 400, message := some "Invalid email or password",
          token := none, user := none }

/-- Variant B's POST /login handler (src/index.js lines 368-386): unknown
email and failed compare both answer 400 "Invalid credentials"; on success
`{token, user}` with the full stored document, hashed password included. -/
def loginB (cmp : String → String → Bool) (sign : String → String)
    (st : List User) (r : LoginRequest) : AuthResponse :=
  match st.find? (fun u => u.email == r.email) with
  | none =>
      { status := 400, message := some "Invalid credentials",
        token := none, user := none }
  | some u =>
      if cmp r.password u.password then
        { status := 200, message := none, token := some (sign u.uid),
          user := some { pid := some u.uid, name := u.name, email := u.email,
                         phone := u.phone, password := some u.password } }
      else
        { status := 400, message := some "Invalid credentials",
          token := none, user := none }

/-- The options object both variants submit to `razorpay.orders.create`:
`{amount: amount * 100, currency: "INR", receipt: "receipt_" + Date.now(),
payment_capture: 1}`. -/
structure OrderOptions where
  amount : Int
  currency : String
  receipt : String
  payment_capture : Nat
deriving DecidableEq

/-- The order document the gateway returns (the fields the handler reads). -/
structure GatewayOrder where
  id : String
  amount : Int
  currency : String
deriving DecidableEq

/-- JSON response of the create-order handlers. -/
structure OrderResponse where
  status : Nat
  id : Option String
  amount : Option Int
  currency : Option String
  message : Option String
deriving DecidableEq

/-- The submitted options as a function of the request amount and the clock. -/
def createOrderOptions (amount : Int) (now : Nat) : OrderOptions :=
  { amount := amount * 100, currency := "INR",
    receipt := "receipt_" ++ toString now, payment_capture := 1 }

/-- POST /api/create-order (identical in both variants, src/index.js lines
63-78 and 325-343): submits the converted options to the gateway and echoes
`{id, amount, currency}` from the order the gateway returns.  `gateway`
models the success path of `razorpay.orders.create`. -/
def createOrder (gateway : OrderOptions → GatewayOrder) (now : Nat)
    (amount : Int) : OrderResponse :=
  let order := gateway (createOrderOptions amount now)
  { status := 200, id := some order.id, amount := some order.amount,
    currency := some order.currency, message := none }

/-- One pass record of the my-passes responses (identical shape in both
variants); `mid` stands for `_id: booking._id.toString()`. -/
structure Pass where
  mid : String
  bookingId : String
  ticketType : TicketType
  quantity : Int
  totalAmount : Int
  name : String
  email : String
  phone : String
  status : BookingStatus
  createdAt : Nat
deriving DecidableEq

/-- The pass built from one booking and one of its tickets (the object
literal inside the ticket map of both my-passes handlers):
`totalAmount: ticket.price * ticket.quantity` plus the booking-level
fields. -/
def passOfTicket (b : Booking) (t : Ticket) : Pass :=
  { mid := b.mid, bookingId := b.bookingId, ticketType := t.ttype,
    quantity := t.quantity, totalAmount := t.price * t.quantity,
    name := b.name, email := b.email, phone := b.phone, status := b.status,
    createdAt := b.createdAt }

/-- `booking.tickets.map(ticket => ...)`: one pass per embedded ticket. -/
def passesOf (b : Booking) : List Pass :=
  b.tickets.map (passOfTicket b)

/-- The full expansion of a list of bookings into passes: variant A writes
`bookings.map(...).flat()`, variant B `bookings.flatMap(...)`; both compute
the same flattened list. -/
def expandPasses (bs : List Booking) : List Pass :=
  (bs.map passesOf).flatten

/-- JSON response of the my-passes handlers: `passes := none` on the 401
paths (no pass data in the body), `some` of the expansion on success. -/
structure PassResponse where
  status : Nat
  message : Option String
  passes : Option (List Pass)
deriving DecidableEq

/-- JS `s.startsWith(pre)`, computed structurally on the character lists (the
library's `String.startsWith` does not reduce in the kernel). -/
def jsStartsWith (s pre : String) : Bool :=
  pre.data.isPrefixOf s.data

/-- Worker for `jsSplit`: accumulates the current chunk (reversed). -/
def jsSplitAux (sep : Char) : List Char → List Char → List String
  | [], acc => [String.mk acc.reverse]
  | c :: cs, acc =>
      if c = sep then String.mk acc.reverse :: jsSplitAux sep cs []
      else jsSplitAux sep cs (c :: acc)

/-- JS `s.split(sep)` for a one-character separator such as `" "`: splits at
every occurrence, keeping empty chunks, and yields `[""]` on the empty
string, exactly as `String.prototype.split` does. -/
def jsSplit (s : String) (sep : Char) : List String :=
  jsSplitAux sep s.data []

/-- `authHeader.split(" ")[1]`: the second chunk of the header (JS yields
`undefined` past the end, which `jwt.verify` then rejects; the default `""`
plays that role here, also rejected by the abstract verifier on the paths
the theorems below take). -/
def extractToken (s : String) : String :=
  (jsSplit s ' ').getD 1 ""

/-- Variant A's GET /api/bookings/my-passes handler with its inline auth
(src/index.js lines 161-218): 401 "No token, authorization denied" when the
Authorization header is absent or does not start with "Bearer "; 401 "Token
is not valid" when `jwt.verify` throws (`vf` returns `none`); otherwise
`Booking.find({userId})` followed by the map/flat expansion. -/
def myPassesA (vf : String → Option String) (st : List Booking)
    (authHeader : Option String) : PassResponse :=
  match authHeader with
  | none =>
      { status := 401, message := some "No token, authorization denied",
        passes := none }
  | some h =>
      if jsStartsWith h "Bearer " then
        match vf (extractToken h) with
        | none =>
            { status := 401, message := some "Token is not valid",
              passes := none }
        | some userId =>
            { status := 200, message := none,
              passes := some (expandPasses
                (st.filter (fun b => b.userId == userId))) }
      else
        { status := 401, message := some "No token, authorization denied",
          passes := none }

/-- Variant B's GET /api/bookings/my-passes handler behind the `auth`
middleware (src/index.js lines 389-406 and 475-500): the middleware answers
401 "No token, authorization denied" on a missing/malformed header and 401
"Invalid token" when `jwt.verify` throws; on success the handler runs
`Booking.find({userId})` and the flatMap expansion. -/
def myPassesB (vf : String → Option String) (st : List Booking)
    (authHeader : Option String) : PassResponse :=
  match authHeader with
  | none =>
      { status := 401, message := some "No token, authorization denied",
        passes := none }
  | some h =>
      if jsStartsWith h "Bearer " then
        match vf (extractToken h) with
        | none =>
            { status := 401, message := some "Invalid token", passes := none }
        | some userId =>
            { status := 200, message := none,
              passes := some (expandPasses
                (st.filter (fun b => b.userId == userId))) }
      else
        { status := 401, message := some "No token, authorization denied",
          passes := none }

/-! Concrete sample inputs for witnesses and counterexamples. -/

/-- A constant stand-in for the abstract HMAC in concrete runs. -/
def hmacConst : String → String → String := fun _ _ => "SIG"

/-- A token verifier accepting exactly the token "tok1" for user "u1". -/
def vfSample : String → Option String :=
  fun t => if t == "tok1" then some "u1" else none

/-- A well-formed formData with a userId and no smuggled schema paths. -/
def fdGood : FormData :=
  { tickets := [{ ttype := TicketType.STAG, quantity := 2, price := 500 },
                { ttype := TicketType.COUPLE, quantity := 1, price := 900 }],
    totalAmount := 1900, name := "Asha", email := "asha@example.com",
    phone := "99", userId := some "u1", status := none,
    paymentId := none, bookingId := none }

/-- A formData smuggling `status: "PENDING"` through variant A's spread. -/
def fdPending : FormData :=
  { fdGood with status := some BookingStatus.PENDING }

/-- A formData smuggling client-chosen `paymentId` and `bookingId` values. -/
def fdSmuggled : FormData :=
  { fdGood with paymentId := some "client_pay", bookingId := some "client_book" }

/-- A verify-payment request whose signature matches `hmacConst`'s output. -/
def reqGood : VerifyRequest :=
  { razorpay_payment_id := "pay_1", razorpay_order_id := "order_1",
    razorpay_signature := "SIG", formData := some fdGood }

/-- A matching-signature request with no formData at all. -/
def reqNoForm : VerifyRequest :=
  { reqGood with formData := none }

/-- A matching-signature request whose formData sets `status: "PENDING"`. -/
def reqPending : VerifyRequest :=
  { reqGood with formData := some fdPending }

/-- A matching-signature request whose formData carries client-chosen
`paymentId`/`bookingId`. -/
def reqSmuggled : VerifyRequest :=
  { reqGood with formData := some fdSmuggled }

/-- A stored user for the identity-service witnesses. -/
def userSample : User :=
  { uid := "id1", name := "Asha", email := "asha@example.com", phone := "99",
    password := "secret#h" }

/-- A stored booking whose `totalAmount` disagrees with its ticket lines
(999 versus one STAG line worth 500): nothing in the code prevents this. -/
def bookingBad : Booking :=
  { mid := "m1",
    tickets := [{ ttype := TicketType.STAG, quantity := 1, price := 500 }],
    totalAmount := 999, name := "Asha", email := "asha@example.com",
    phone := "99", userId := "u1", paymentId := "pay_1", bookingId := "BN1",
    status := BookingStatus.CONFIRMED, createdAt := 7 }

/-- A stored booking whose `totalAmount` is consistent with its tickets. -/
def bookingGood : Booking :=
  { mid := "m2",
    tickets := [{ ttype := TicketType.STAG, quantity := 2, price := 500 },
                { ttype := TicketType.COUPLE, quantity := 1, price := 900 }],
    totalAmount := 1900, name := "Asha", email := "asha@example.com",
    phone := "99", userId := "u1", paymentId := "pay_2", bookingId := "BN2",
    status := BookingStatus.CONFIRMED, createdAt := 8 }

/-- A concrete stand-in for `bcrypt.hash(p, 10)` in witnesses. -/
def hashSample : String → String := fun p => p ++ "#h"

/-- A concrete stand-in for `bcrypt.compare` consistent with `hashSample`. -/
def cmpSample : String → String → Bool := fun p hp => (p ++ "#h") == hp

/-- A concrete stand-in for `jwt.sign` in witnesses. -/
def signSample : String → String := fun i => "tok_" ++ i

/-- A registration request matching `userSample`'s data (its password is the
raw "secret", of which `userSample.password` is the `hashSample` hash). -/
def regReq : RegisterRequest :=
  { name := "Asha", email := "asha@example.com", phone := "99",
    password := "secret" }

/-- A login attempt with an email no stored user has. -/
def loginUnknown : LoginRequest :=
  { email := "nobody@example.com", password := "whatever" }

/-- A login attempt with `userSample`'s email but the wrong password. -/
def loginWrongPw : LoginRequest :=
  { email := "asha@example.com", password := "wrong" }

/-! Claim C1. -/

/-- Claim C1, as stated, is false: the spec says a Booking is persisted if
and only if the recomputed HMAC equals the supplied signature, but variant A
first rejects any request whose `formData`/`formData.userId` is missing.
Here the recomputed digest equals the supplied signature, yet the handler
answers 400 "User ID is required" and writes nothing. -/
theorem verify_payment_iff_counterexample :
    genSig hmacConst "sec" reqNoForm = reqNoForm.razorpay_signature
    ∧ (verifyPaymentA hmacConst "sec" "m1" 3 7 [] reqNoForm).2 = []
    ∧ (verifyPaymentA hmacConst "sec" "m1" 3 7 [] reqNoForm).1.status = 400
    ∧ (verifyPaymentA hmacConst "sec" "m1" 3 7 [] reqNoForm).1.message
        = some "User ID is required" := by
  refine ⟨rfl, rfl, rfl, rfl⟩

/-- Claim C1 (amended): a Booking is persisted if and only if the request
carries a usable `formData.userId` AND the recomputed HMAC-SHA256 digest over
`razorpay_order_id + "|" + razorpay_payment_id`, keyed with the gateway
secret, equals the supplied `razorpay_signature`.  On signature mismatch no
write happens; variant B then always answers 400 "Invalid payment
signature", and variant A answers the same whenever its userId guard has
passed (otherwise it answers the missing-user-id error, still with no
write). -/
theorem verify_payment_persists_iff_signature
    (hmac : String → String → String) (secret oid : String) (rnd now : Nat)
    (st : List Booking) (req : VerifyRequest) :
    (hasUserId req.formData = true →
      genSig hmac secret req = req.razorpay_signature →
      ∀ fd, req.formData = some fd →
        (verifyPaymentA hmac secret oid rnd now st req).2
          = st ++ [mkBookingA oid rnd now req fd]
        ∧ (verifyPaymentB hmac secret oid rnd now st req).2
          = st ++ [mkBookingB oid rnd now req fd])
    ∧ (genSig hmac secret req ≠ req.razorpay_signature →
        (verifyPaymentA hmac secret oid rnd now st req).2 = st
        ∧ (verifyPaymentB hmac secret oid rnd now st req).2 = st
        ∧ (verifyPaymentB hmac secret oid rnd now st req).1
            = { status := 400, message := some "Invalid payment signature",
                success := false, booking := none }
        ∧ (hasUserId req.formData = true →
            (verifyPaymentA hmac secret oid rnd now st req).1
              = { status := 400, message := some "Invalid payment signature",
                  success := false, booking := none }))
    ∧ (hasUserId req.formData = false →
        (verifyPaymentA hmac secret oid rnd now st req).2 = st
        ∧ (verifyPaymentB hmac secret oid rnd now st req).2 = st) := by
  refine ⟨?_, ?_, ?_⟩
  · intro hu hs fd hfd
    have huid : ¬ fd.userId.getD "" = "" := by
      simp [hasUserId, hfd] at hu
      exact hu
    constructor
    · simp [verifyPaymentA, hfd, huid, hs]
    · simp [verifyPaymentB, hfd, huid, hs]
  · intro hs
    cases hfd : req.formData with
    | none =>
        refine ⟨by simp [verifyPaymentA, hfd], ?_, ?_, ?_⟩
        · simp [verifyPaymentB, hfd, hs]
        · simp [verifyPaymentB, hfd, hs]
        · intro hu
          simp [hasUserId, hfd] at hu
    | some fd =>
        by_cases huid : fd.userId.getD "" = ""
        · refine ⟨by simp [verifyPaymentA, hfd, huid], ?_, ?_, ?_⟩
          · simp [verifyPaymentB, hfd, huid, hs]
          · simp [verifyPaymentB, hfd, huid, hs]
          · intro hu
            simp [hasUserId, hfd, huid] at hu
        · refine ⟨by simp [verifyPaymentA, hfd, huid, hs], ?_, ?_, ?_⟩
          · simp [verifyPaymentB, hfd, huid, hs]
          · simp [verifyPaymentB, hfd, huid, hs]
          · intro _
            simp [verifyPaymentA, hfd, huid, hs]
  · intro hu
    cases hfd : req.formData with
    | none =>
        refine ⟨by simp [verifyPaymentA, hfd], ?_⟩
        simp only [verifyPaymentB, hfd]
        split
        · rfl
        · rfl
    | some fd =>
        have huid : fd.userId.getD "" = "" := by
          simp [hasUserId, hfd] at hu
          exact hu
        refine ⟨by simp [verifyPaymentA, hfd, huid], ?_⟩
        simp only [verifyPaymentB, hfd]
        split
        · rfl
        · simp [huid]

/-- Witness for C1 (amended): a concrete matching-signature request with a
userId persists exactly the constructed booking in both variants. -/
theorem verify_payment_persists_iff_signature_witness :
    (verifyPaymentA hmacConst "sec" "m1" 3 7 [] reqGood).2
      = [] ++ [mkBookingA "m1" 3 7 reqGood fdGood]
    ∧ (verifyPaymentB hmacConst "sec" "m1" 3 7 [] reqGood).2
      = [] ++ [mkBookingB "m1" 3 7 reqGood fdGood] :=
  (verify_payment_persists_iff_signature hmacConst "sec" "m1" 3 7 []
    reqGood).1 (by decide) rfl fdGood rfl

/-! Claim C2. -/

/-- Claim C2, as stated, is false: variant A's `new Booking({...formData,
paymentId, bookingId})` spreads the client-supplied `formData` into the
constructor, so a client that puts `status: "PENDING"` (a value the schema
enum accepts) into `formData` gets a Booking persisted with status PENDING --
the schema default CONFIRMED only applies when `formData` carries no
status.  Concretely: a matching-signature request whose formData sets
PENDING persists exactly one booking and its status is PENDING. -/
theorem booking_pending_counterexample :
    ((verifyPaymentA hmacConst "sec" "m1" 3 7 [] reqPending).2.map
        (fun b => b.status)) = [BookingStatus.PENDING]
    ∧ (verifyPaymentA hmacConst "sec" "m1" 3 7 [] reqPending).1.success
        = true := by
  refine ⟨rfl, rfl⟩

/-- Claim C2 (amended): variant B never persists a Booking with a status
other than CONFIRMED (it assigns fields explicitly and never sets `status`,
so the schema default applies); variant A guarantees this only for requests
whose `formData` does not smuggle a `status` value -- with such a status
present, the spread writes it into the document. -/
theorem booking_status_confirmed_amended
    (hmac : String → String → String) (secret oid : String) (rnd now : Nat)
    (st : List Booking) (req : VerifyRequest) :
    ((verifyPaymentB hmac secret oid rnd now st req).2 = st
      ∨ ∃ b, (verifyPaymentB hmac secret oid rnd now st req).2 = st ++ [b]
          ∧ b.status = BookingStatus.CONFIRMED)
    ∧ ((∀ fd, req.formData = some fd → fd.status = none) →
        ((verifyPaymentA hmac secret oid rnd now st req).2 = st
          ∨ ∃ b, (verifyPaymentA hmac secret oid rnd now st req).2 = st ++ [b]
              ∧ b.status = BookingStatus.CONFIRMED)) := by
  constructor
  · cases hfd : req.formData with
    | none =>
        simp only [verifyPaymentB, hfd]
        split
        · exact Or.inl rfl
        · exact Or.inl rfl
    | some fd =>
        simp only [verifyPaymentB, hfd]
        split
        · exact Or.inl rfl
        · split
          · exact Or.inl rfl
          · exact Or.inr ⟨mkBookingB oid rnd now req fd, rfl, rfl⟩
  · intro hstat
    cases hfd : req.formData with
    | none => exact Or.inl (by simp [verifyPaymentA, hfd])
    | some fd =>
        simp only [verifyPaymentA, hfd]
        split
        · exact Or.inl rfl
        · split
          · exact Or.inl rfl
          · refine Or.inr ⟨mkBookingA oid rnd now req fd, rfl, ?_⟩
            simp [mkBookingA, hstat fd hfd]

/-- Witness for C2 (amended): the concrete status-free request persists a
CONFIRMED booking through variant A. -/
theorem booking_status_confirmed_amended_witness :
    (verifyPaymentA hmacConst "sec" "m1" 3 7 [] reqGood).2 = []
    ∨ ∃ b, (verifyPaymentA hmacConst "sec" "m1" 3 7 [] reqGood).2 = [] ++ [b]
        ∧ b.status = BookingStatus.CONFIRMED :=
  (booking_status_confirmed_amended hmacConst "sec" "m1" 3 7 [] reqGood).2
    (fun fd h => by
      have h2 : fdGood = fd := Option.some.inj h
      rw [← h2]
      rfl)

/-! Claim C3. -/

/-- Claim C3, as stated, is false: the pass expansion recomputes
`ticket.price * ticket.quantity` per pass, but nothing in the system ever
checks that a stored booking's `totalAmount` equals the sum of its ticket
lines (it is taken verbatim from client `formData` at creation).  For the
stored booking `bookingBad` (one STAG line worth 500, `totalAmount` 999) the
handler produces its passes, whose totals sum to 500, not 999. -/
theorem passes_sum_counterexample :
    (myPassesA vfSample [bookingBad] (some "Bearer tok1")).passes
      = some (passesOf bookingBad)
    ∧ ((passesOf bookingBad).map (fun p => p.totalAmount)).sum = 500
    ∧ bookingBad.totalAmount = 999
    ∧ ((passesOf bookingBad).map (fun p => p.totalAmount)).sum
        ≠ bookingBad.totalAmount := by
  refine ⟨rfl, rfl, rfl, by decide⟩

/-- Claim C3 (amended): for every stored booking with N embedded ticket
lines, the my-passes expansion produces exactly N passes for it, the list of
pass totals is exactly the list of `price × quantity` per ticket (in ticket
order), and -- provided the booking's stored `totalAmount` is consistent,
i.e. equals the sum of `price × quantity` over its tickets -- the pass totals
sum to the stored `totalAmount`.  On an authenticated request both handlers
answer the expansion of the user's bookings, and each stored booking of that
user contributes its own pass block to it. -/
theorem passes_expansion_amended
    (b : Booking)
    (hc : b.totalAmount = (b.tickets.map (fun t => t.price * t.quantity)).sum)
    (vf : String → Option String) (st : List Booking) (h uid : String)
    (hpre : jsStartsWith h "Bearer " = true)
    (hvf : vf (extractToken h) = some uid) :
    (passesOf b).length = b.tickets.length
    ∧ (passesOf b).map (fun p => p.totalAmount)
        = b.tickets.map (fun t => t.price * t.quantity)
    ∧ ((passesOf b).map (fun p => p.totalAmount)).sum = b.totalAmount
    ∧ (myPassesA vf st (some h)).passes
        = some (expandPasses (st.filter (fun bb => bb.userId == uid)))
    ∧ (myPassesB vf st (some h)).passes
        = some (expandPasses (st.filter (fun bb => bb.userId == uid)))
    ∧ (b ∈ st → b.userId = uid →
        passesOf b ∈ (st.filter (fun bb => bb.userId == uid)).map passesOf) := by
  have hmap : (passesOf b).map (fun p => p.totalAmount)
      = b.tickets.map (fun t => t.price * t.quantity) := by
    simp [passesOf, passOfTicket, List.map_map]
  refine ⟨by simp [passesOf], hmap, by rw [hmap, ← hc],
    by simp [myPassesA, hpre, hvf], by simp [myPassesB, hpre, hvf], ?_⟩
  intro hmem huid
  exact List.mem_map_of_mem passesOf
    (List.mem_filter.mpr ⟨hmem, by simp [huid]⟩)

/-- Witness for C3 (amended): the consistent stored booking `bookingGood`
(lines STAG×2 at 500 and COUPLE×1 at 900, `totalAmount` 1900) expands to two
passes with totals 1000 and 900 summing to 1900, through both handlers. -/
theorem passes_expansion_amended_witness :
    (passesOf bookingGood).length = bookingGood.tickets.length
    ∧ (passesOf bookingGood).map (fun p => p.totalAmount)
        = bookingGood.tickets.map (fun t => t.price * t.quantity)
    ∧ ((passesOf bookingGood).map (fun p => p.totalAmount)).sum
        = bookingGood.totalAmount
    ∧ (myPassesA vfSample [bookingGood] (some "Bearer tok1")).passes
        = some (expandPasses
            ([bookingGood].filter (fun bb => bb.userId == "u1")))
    ∧ (myPassesB vfSample [bookingGood] (some "Bearer tok1")).passes
        = some (expandPasses
            ([bookingGood].filter (fun bb => bb.userId == "u1")))
    ∧ (bookingGood ∈ [bookingGood] → bookingGood.userId = "u1" →
        passesOf bookingGood
          ∈ ([bookingGood].filter (fun bb => bb.userId == "u1")).map
              passesOf) :=
  passes_expansion_amended bookingGood (by decide) vfSample [bookingGood]
    "Bearer tok1" "u1" (by decide) rfl

/-! Claim C4. -/

/-- Claim C4: a my-passes request whose Authorization header is absent or
does not start with "Bearer ", or whose extracted token the verifier
rejects, is answered 401 with no pass data, in both variants. -/
theorem my_passes_unauthorized
    (vf : String → Option String) (st : List Booking) (hdr : Option String)
    (h : hdr = none
      ∨ ∃ s, hdr = some s
          ∧ (jsStartsWith s "Bearer " = false ∨ vf (extractToken s) = none)) :
    (myPassesA vf st hdr).status = 401
    ∧ (myPassesA vf st hdr).passes = none
    ∧ (myPassesB vf st hdr).status = 401
    ∧ (myPassesB vf st hdr).passes = none := by
  rcases h with h | ⟨s, hs, hbad⟩
  · subst h
    exact ⟨rfl, rfl, rfl, rfl⟩
  · subst hs
    rcases hbad with hb | hb
    · simp [myPassesA, myPassesB, hb]
    · cases hpre : jsStartsWith s "Bearer " with
      | false => simp [myPassesA, myPassesB, hpre]
      | true => simp [myPassesA, myPassesB, hpre, hb]

/-- Witness for C4: the concrete request with no Authorization header is
answered 401 with no data by both variants. -/
theorem my_passes_unauthorized_witness :
    (myPassesA vfSample [bookingGood] none).status = 401
    ∧ (myPassesA vfSample [bookingGood] none).passes = none
    ∧ (myPassesB vfSample [bookingGood] none).status = 401
    ∧ (myPassesB vfSample [bookingGood] none).passes = none :=
  my_passes_unauthorized vfSample [bookingGood] none (Or.inl rfl)

/-! Claim C5. -/

/-- Claim C5: a login attempt with an unknown email and a login attempt with
a known email but wrong password produce identical responses (in particular
the same status code and the same error message), in each variant; the
common response is 400 with "Invalid email or password" in variant A and 400
with "Invalid credentials" in variant B. -/
theorem login_failure_indistinguishable
    (cmp : String → String → Bool) (sign : String → String) (st : List User)
    (r1 r2 : LoginRequest) (u : User)
    (h1 : st.find? (fun v => v.email == r1.email) = none)
    (h2 : st.find? (fun v => v.email == r2.email) = some u)
    (h3 : cmp r2.password u.password = false) :
    loginA cmp sign st r1 = loginA cmp sign st r2
    ∧ loginB cmp sign st r1 = loginB cmp sign st r2
    ∧ (loginA cmp sign st r1).status = 400
    ∧ (loginA cmp sign st r1).message = some "Invalid email or password"
    ∧ (loginB cmp sign st r1).status = 400
    ∧ (loginB cmp sign st r1).message = some "Invalid credentials" := by
  refine ⟨?_, ?_, ?_, ?_, ?_, ?_⟩ <;>
    simp [loginA, loginB, h1, h2, h3]

/-- Witness for C5: with one stored user, the concrete unknown-email attempt
and the concrete wrong-password attempt draw identical failures. -/
theorem login_failure_indistinguishable_witness :
    loginA cmpSample signSample [userSample] loginUnknown
      = loginA cmpSample signSample [userSample] loginWrongPw
    ∧ loginB cmpSample signSample [userSample] loginUnknown
      = loginB cmpSample signSample [userSample] loginWrongPw
    ∧ (loginA cmpSample signSample [userSample] loginUnknown).status = 400
    ∧ (loginA cmpSample signSample [userSample] loginUnknown).message
        = some "Invalid email or password"
    ∧ (loginB cmpSample signSample [userSample] loginUnknown).status = 400
    ∧ (loginB cmpSample signSample [userSample] loginUnknown).message
        = some "Invalid credentials" :=
  login_failure_indistinguishable cmpSample signSample [userSample]
    loginUnknown loginWrongPw userSample (by decide) (by decide) (by decide)

/-! Claim C6. -/

/-- Claim C6, as stated, is false: variant B's register handler responds
`res.status(201).json({ token, user })` with the full saved document, so the
response's user object carries the password field (holding the bcrypt hash)
instead of omitting it.  Concretely, registering with `hashSample` as the
hash leaves `password = some "secret#h"` in the response. -/
theorem register_password_in_response_counterexample :
    (registerB hashSample signSample "id1" [] regReq).1.user
      = some { pid := some "id1", name := "Asha", email := "asha@example.com",
               phone := "99", password := some "secret#h" }
    ∧ ((registerB hashSample signSample "id1" [] regReq).1.user).map
        (fun p => p.password) ≠ some (none : Option String) := by
  refine ⟨rfl, by decide⟩

/-- Claim C6 (amended): on a fresh email, both variants respond with an
access token and the stored profile, and persist the hashed password;
variant A omits the password field from the response, while variant B
returns the full stored document including the hashed password.  Whenever
the hash differs from the raw password (bcrypt's contract), the raw password
is neither persisted nor returned: every persisted record either predates
the call or stores the hash, and variant B's returned password value is the
hash, not the raw password. -/
theorem register_success_response_amended
    (hash sign : String → String) (newId : String) (st : List User)
    (r : RegisterRequest)
    (hfresh : st.find? (fun u => u.email == r.email) = none) :
    (registerA hash sign newId st r).1
      = { status := 200, message := none, token := some (sign newId),
          user := some { pid := some newId, name := r.name, email := r.email,
                         phone := r.phone, password := none } }
    ∧ (registerA hash sign newId st r).2
      = st ++ [{ uid := newId, name := r.name, email := r.email,
                 phone := r.phone, password := hash r.password }]
    ∧ (registerB hash sign newId st r).1
      = { status := 201, message := none, token := some (sign newId),
          user := some { pid := some newId, name := r.name, email := r.email,
                         phone := r.phone,
                         password := some (hash r.password) } }
    ∧ (registerB hash sign newId st r).2
      = st ++ [{ uid := newId, name := r.name, email := r.email,
                 phone := r.phone, password := hash r.password }]
    ∧ (∀ x : User, x ∈ (registerA hash sign newId st r).2 →
        x ∈ st ∨ x.password = hash r.password)
    ∧ (∀ x : User, x ∈ (registerB hash sign newId st r).2 →
        x ∈ st ∨ x.password = hash r.password)
    ∧ (hash r.password ≠ r.password →
        ((registerB hash sign newId st r).1.user).map (fun p => p.password)
          ≠ some (some r.password)) := by
  refine ⟨by simp [registerA, hfresh], by simp [registerA, hfresh],
    by simp [registerB, hfresh], by simp [registerB, hfresh], ?_, ?_, ?_⟩
  · intro x hx
    rw [show (registerA hash sign newId st r).2
        = st ++ [{ uid := newId, name := r.name, email := r.email,
                   phone := r.phone, password := hash r.password }] from
      by simp [registerA, hfresh]] at hx
    rcases List.mem_append.mp hx with h | h
    · exact Or.inl h
    · right
      rw [List.mem_singleton.mp h]
  · intro x hx
    rw [show (registerB hash sign newId st r).2
        = st ++ [{ uid := newId, name := r.name, email := r.email,
                   phone := r.phone, password := hash r.password }] from
      by simp [registerB, hfresh]] at hx
    rcases List.mem_append.mp hx with h | h
    · exact Or.inl h
    · right
      rw [List.mem_singleton.mp h]
  · intro hne
    simp [registerB, hfresh]
    exact hne

/-- Witness for C6 (amended): the concrete fresh registration through both
variants, with `hashSample` for bcrypt. -/
theorem register_success_response_amended_witness :
    (registerA hashSample signSample "id1" [] regReq).1
      = { status := 200, message := none, token := some (signSample "id1"),
          user := some { pid := some "id1", name := regReq.name,
                         email := regReq.email, phone := regReq.phone,
                         password := none } }
    ∧ (registerA hashSample signSample "id1" [] regReq).2
      = [] ++ [{ uid := "id1", name := regReq.name, email := regReq.email,
                 phone := regReq.phone,
                 password := hashSample regReq.password }]
    ∧ (registerB hashSample signSample "id1" [] regReq).1
      = { status := 201, message := none, token := some (signSample "id1"),
          user := some { pid := some "id1", name := regReq.name,
                         email := regReq.email, phone := regReq.phone,
                         password := some (hashSample regReq.password) } }
    ∧ (registerB hashSample signSample "id1" [] regReq).2
      = [] ++ [{ uid := "id1", name := regReq.name, email := regReq.email,
                 phone := regReq.phone,
                 password := hashSample regReq.password }]
    ∧ (∀ x : User, x ∈ (registerA hashSample signSample "id1" [] regReq).2 →
        x ∈ ([] : List User) ∨ x.password = hashSample regReq.password)
    ∧ (∀ x : User, x ∈ (registerB hashSample signSample "id1" [] regReq).2 →
        x ∈ ([] : List User) ∨ x.password = hashSample regReq.password)
    ∧ (hashSample regReq.password ≠ regReq.password →
        ((registerB hashSample signSample "id1" [] regReq).1.user).map
          (fun p => p.password) ≠ some (some regReq.password)) :=
  register_success_response_amended hashSample signSample "id1" [] regReq rfl

/-! Claim C7. -/

/-- Claim C7: a registration attempt whose email is already stored is
answered with the duplicate-email conflict (400, "Email already in use" in
variant A, "User already exists" in variant B) and the user store is
returned unchanged: no record is created. -/
theorem register_duplicate_email
    (hash sign : String → String) (newId : String) (st : List User)
    (r : RegisterRequest) (u : User)
    (hdup : st.find? (fun v => v.email == r.email) = some u) :
    registerA hash sign newId st r
      = ({ status := 400, message := some "Email already in use",
           token := none, user := none }, st)
    ∧ registerB hash sign newId st r
      = ({ status := 400, message := some "User already exists",
           token := none, user := none }, st) := by
  constructor
  · simp [registerA, hdup]
  · simp [registerB, hdup]

/-- Witness for C7: re-registering `userSample`'s email leaves the store
unchanged and draws the conflict response in both variants. -/
theorem register_duplicate_email_witness :
    registerA hashSample signSample "id2" [userSample] regReq
      = ({ status := 400, message := some "Email already in use",
           token := none, user := none }, [userSample])
    ∧ registerB hashSample signSample "id2" [userSample] regReq
      = ({ status := 400, message := some "User already exists",
           token := none, user := none }, [userSample]) :=
  register_duplicate_email hashSample signSample "id2" [userSample] regReq
    userSample (by decide)

/-! Claim C8. -/

/-- `findOne` on a store extended with one record: when nothing in the old
store matches, the lookup finds the new record exactly when it matches. -/
theorem find?_append_singleton {α : Type} (l : List α) (p : α → Bool) (a : α)
    (h : l.find? p = none) :
    (l ++ [a]).find? p = if p a then some a else none := by
  induction l with
  | nil =>
      cases hx : p a with
      | true => simp [List.find?, hx]
      | false => simp [List.find?, hx]
  | cons x xs ih =>
      cases hx : p x with
      | true => simp [List.find?, hx] at h
      | false =>
          rw [List.find?_cons_of_neg _ (by simp [hx])] at h
          rw [List.cons_append, List.find?_cons_of_neg _ (by simp [hx])]
          exact ih h

/-- Claim C8: registering a not-yet-used email succeeds (200 with a token),
and a subsequent login through the same variant with the same email and
password succeeds, returning a token and the profile -- given bcrypt's
round-trip contract that `compare(p, hash(p))` holds. -/
theorem register_then_login
    (hash sign : String → String) (cmp : String → String → Bool)
    (newId : String) (st : List User) (r : RegisterRequest)
    (hfresh : st.find? (fun u => u.email == r.email) = none)
    (hcmp : cmp r.password (hash r.password) = true) :
    (registerA hash sign newId st r).1.status = 200
    ∧ (registerA hash sign newId st r).1.token = some (sign newId)
    ∧ loginA cmp sign (registerA hash sign newId st r).2
        { email := r.email, password := r.password }
      = { status := 200, message := none, token := some (sign newId),
          user := some { pid := some newId, name := r.name, email := r.email,
                         phone := r.phone, password := none } } := by
  have hst : (registerA hash sign newId st r).2
      = st ++ [{ uid := newId, name := r.name, email := r.email,
                 phone := r.phone, password := hash r.password }] := by
    simp [registerA, hfresh]
  have hfind : ((registerA hash sign newId st r).2).find?
      (fun u => u.email == r.email)
      = some { uid := newId, name := r.name, email := r.email,
               phone := r.phone, password := hash r.password } := by
    rw [hst, find?_append_singleton _ _ _ hfresh]
    simp
  refine ⟨by simp [registerA, hfresh], by simp [registerA, hfresh], ?_⟩
  simp [loginA, hfind, hcmp]

/-- Witness for C8: the concrete fresh registration followed by a login with
the same credentials, with `hashSample`/`cmpSample` for bcrypt. -/
theorem register_then_login_witness :
    (registerA hashSample signSample "id1" [] regReq).1.status = 200
    ∧ (registerA hashSample signSample "id1" [] regReq).1.token
        = some (signSample "id1")
    ∧ loginA cmpSample signSample
        (registerA hashSample signSample "id1" [] regReq).2
        { email := regReq.email, password := regReq.password }
      = { status := 200, message := none, token := some (signSample "id1"),
          user := some { pid := some "id1", name := regReq.name,
                         email := regReq.email, phone := regReq.phone,
                         password := none } } :=
  register_then_login hashSample signSample cmpSample "id1" [] regReq rfl
    (by decide)

/-! Claim C9. -/

/-- Claim C9: for a create-order request with amount `a` the options
submitted to the gateway carry exactly `a * 100` (major units to paise) and
the fixed currency "INR", and the response echoes the id, amount and
currency of the order the gateway returns (both variants run the identical
handler). -/
theorem create_order_amount_conversion
    (gateway : OrderOptions → GatewayOrder) (now : Nat) (amount : Int) :
    (createOrderOptions amount now).amount = amount * 100
    ∧ (createOrderOptions amount now).currency = "INR"
    ∧ createOrder gateway now amount
      = { status := 200,
          id := some (gateway (createOrderOptions amount now)).id,
          amount := some (gateway (createOrderOptions amount now)).amount,
          currency := some (gateway (createOrderOptions amount now)).currency,
          message := none } :=
  ⟨rfl, rfl, rfl⟩

/-! Claim C10. -/

/-- Claim C10: when a verify-payment request passes the userId guard and the
signature check, the persisted Booking's `paymentId` is the supplied
`razorpay_payment_id` and its `bookingId` is "BN" followed by an integer in
[0, 10000) -- in variant A because those two fields are assigned after the
`...formData` spread and so override any client-supplied `paymentId` /
`bookingId` inside `formData`, and in variant B because the fields are
assigned explicitly from the request. -/
theorem verify_payment_server_fields
    (hmac : String → String → String) (secret oid : String) (rnd now : Nat)
    (st : List Booking) (req : VerifyRequest) (fd : FormData)
    (hfd : req.formData = some fd)
    (huid : ¬ fd.userId.getD "" = "")
    (hsig : genSig hmac secret req = req.razorpay_signature) :
    rnd % 10000 < 10000
    ∧ (verifyPaymentA hmac secret oid rnd now st req).2
        = st ++ [mkBookingA oid rnd now req fd]
    ∧ (mkBookingA oid rnd now req fd).paymentId = req.razorpay_payment_id
    ∧ (mkBookingA oid rnd now req fd).bookingId
        = "BN" ++ toString (rnd % 10000)
    ∧ (verifyPaymentB hmac secret oid rnd now st req).2
        = st ++ [mkBookingB oid rnd now req fd]
    ∧ (mkBookingB oid rnd now req fd).paymentId = req.razorpay_payment_id
    ∧ (mkBookingB oid rnd now req fd).bookingId
        = "BN" ++ toString (rnd % 10000) := by
  refine ⟨Nat.mod_lt _ (by decide), ?_, rfl, rfl, ?_, rfl, rfl⟩
  · simp [verifyPaymentA, hfd, huid, hsig]
  · simp [verifyPaymentB, hfd, huid, hsig]

/-- Witness for C10: a concrete matching-signature request whose formData
smuggles `paymentId: "client_pay"` and `bookingId: "client_book"`; the
persisted booking still carries the request's payment id and a
server-generated "BN…" booking id. -/
theorem verify_payment_server_fields_witness :
    3 % 10000 < 10000
    ∧ (verifyPaymentA hmacConst "sec" "m1" 3 7 [] reqSmuggled).2
        = [] ++ [mkBookingA "m1" 3 7 reqSmuggled fdSmuggled]
    ∧ (mkBookingA "m1" 3 7 reqSmuggled fdSmuggled).paymentId
        = reqSmuggled.razorpay_payment_id
    ∧ (mkBookingA "m1" 3 7 reqSmuggled fdSmuggled).bookingId
        = "BN" ++ toString (3 % 10000)
    ∧ (verifyPaymentB hmacConst "sec" "m1" 3 7 [] reqSmuggled).2
        = [] ++ [mkBookingB "m1" 3 7 reqSmuggled fdSmuggled]
    ∧ (mkBookingB "m1" 3 7 reqSmuggled fdSmuggled).paymentId
        = reqSmuggled.razorpay_payment_id
    ∧ (mkBookingB "m1" 3 7 reqSmuggled fdSmuggled).bookingId
        = "BN" ++ toString (3 % 10000) :=
  verify_payment_server_fields hmacConst "sec" "m1" 3 7 [] reqSmuggled
    fdSmuggled rfl (by decide) rfl

end BollywoodNight
